import Mathlib

/-!
Verification of the Prefetch Queue Enqueuer (`pyjet/training.py`,
class `GeneratorEnqueuer`) against its natural-language specification.

The embedding models:
 - Python's `queue.Queue` as a FIFO list with a `maxsize` field
   (Python convention: `maxsize = 0` means the queue is unbounded;
   `queue.Queue()` uses the default `maxsize = 0`);
 - the enqueuer object's attributes (`steps_per_epoch`, `batch_size`,
   `_generator`, `_threads`, `_stop_event`, `queue`, `wait_time`) as a record,
   with `threading.Event` modelled as `Option Bool`
   (`none` = attribute is `None`, `some b` = event exists with is_set b)
   and a spawned `threading.Thread` object modelled opaquely as `Unit`;
 - the methods `__init__`, `start`, `is_running`, `stop`, `__next__` as pure
   functions on that record (`__next__`'s polling loop is given poll fuel);
 - a worker's `data_generator_task` loop body as a function of the enqueuer
   state it reads and of the outcome of the `next(self._generator)` /
   `queue.put` calls;
 - the multi-worker interleaving of `data_generator_task` with the consumer
   as a small-step transition system on the queue size plus each worker's
   position in its check-then-produce sequence;
 - the single-worker producer/consumer interleaving (for the order
   preservation property) as a small-step transition system on the generator
   cursor, queue contents and the list of consumed items.
-/

/-- Model of Python's `queue.Queue`: `maxsize` as passed to the constructor
(`0` means unbounded, the default), and the FIFO contents (front of the list
is the oldest element, returned first by `get`). -/
structure PyQueue (α : Type) where
  maxsize : Nat
  items : List α
deriving DecidableEq, Repr

/-- `queue.Queue.qsize()`: number of buffered items. -/
def PyQueue.qsize (q : PyQueue α) : Nat :=
  q.items.length

/-- `queue.Queue.empty()`. -/
def PyQueue.isEmpty (q : PyQueue α) : Bool :=
  q.items.isEmpty

/-- `queue.Queue.put(a)`: appends at the back.  On an unbounded queue
(`maxsize = 0`, the kind `start()` creates) `put` always succeeds and never
blocks, so it is a total function here. -/
def PyQueue.put (q : PyQueue α) (a : α) : PyQueue α :=
  { q with items := q.items ++ [a] }

/-- The queue `queue.Queue()` creates: default `maxsize = 0` (unbounded),
no contents. -/
def PyQueue.new (α : Type) : PyQueue α :=
  { maxsize := 0, items := [] }

/-- The attributes of the caller-supplied source generator that
`GeneratorEnqueuer.__init__` probes with `hasattr`: `none` models an absent
attribute, `some v` a present one. -/
structure GenInfo where
  steps_per_epoch : Option Nat
  batch_size : Option Nat
deriving DecidableEq, Repr

/-- The mutable attributes of a `GeneratorEnqueuer` instance.
`stop_event` models `self._stop_event : threading.Event | None` as
`none` (attribute is `None`) or `some b` (`b` = `is_set()`);
`threads` models `self._threads`, one opaque `Unit` per spawned
`threading.Thread`; `wait_time` models the stored poll interval opaquely as a
`Nat` (its numeric value never influences control flow, only sleep duration). -/
structure GeneratorEnqueuer (α : Type) where
  steps_per_epoch : Option Nat
  batch_size : Option Nat
  generator : GenInfo
  threads : List Unit
  stop_event : Option Bool
  queue : Option (PyQueue α)
  wait_time : Option Nat
deriving DecidableEq, Repr

/-- Modelled from the spec: `data.BatchGenerator.__init__` (file
`pyjet/data.py`, which is not among the provided sources; only its caller
`GeneratorEnqueuer.__init__` is) stores the two informational fields on the
instance — the spec says `steps_per_epoch` and `batch_size` "are copied
through if present, purely for downstream consumers' benefit". -/
def BatchGenerator.init (spe bs : Nat) : Option Nat × Option Nat :=
  (some spe, some bs)

/-- `GeneratorEnqueuer.__init__(generator)`.  Returns the constructed object
together with a `Bool` recording whether the `logging.warning` about missing
`steps_per_epoch` / `batch_size` attributes was emitted.  The source guards
the copy with `hasattr(generator, "steps_per_epoch") and
hasattr(generator, "batch_size")` — a conjunction — and otherwise only warns
and continues without the fields.  Construction never raises, so this is a
total function. -/
def GeneratorEnqueuer.init (α : Type) (g : GenInfo) : GeneratorEnqueuer α × Bool :=
  match g.steps_per_epoch, g.batch_size with
  | some spe, some bs =>
    ({ steps_per_epoch := (BatchGenerator.init spe bs).1
       batch_size := (BatchGenerator.init spe bs).2
       generator := g
       threads := []
       stop_event := none
       queue := none
       wait_time := none }, false)
  | _, _ =>
    ({ steps_per_epoch := none
       batch_size := none
       generator := g
       threads := []
       stop_event := none
       queue := none
       wait_time := none }, true)

/-- `GeneratorEnqueuer.start(workers, max_q_size, wait_time)`:
stores `wait_time`, sets `self.queue = queue.Queue()` (the default,
unbounded queue — `max_q_size` is not passed to the constructor, it is only
captured by the worker closure), sets a fresh unset `threading.Event`, and
appends `workers` new threads to the existing `self._threads` list (the list
is never cleared here).  The `try` around spawning cannot fail in this model,
and `start` performs no is-already-running check, so this is a total
function on any state. -/
def GeneratorEnqueuer.start (s : GeneratorEnqueuer α) (workers max_q_size wait_time : Nat) :
    GeneratorEnqueuer α :=
  { s with
    wait_time := some wait_time
    queue := some (PyQueue.new α)
    stop_event := some false
    threads := s.threads ++ List.replicate workers () }

/-- `GeneratorEnqueuer.is_running()`:
`self._stop_event is not None and not self._stop_event.is_set()`. -/
def GeneratorEnqueuer.is_running (s : GeneratorEnqueuer α) : Bool :=
  match s.stop_event with
  | none => false
  | some isSet => !isSet

/-- `GeneratorEnqueuer.stop(timeout)`: sets the stop event if running, joins
each live thread (no effect on the modelled attributes), then clears
`self._threads`, `self._stop_event` and `self.queue`.  Never raises. -/
def GeneratorEnqueuer.stop (s : GeneratorEnqueuer α) : GeneratorEnqueuer α :=
  { s with
    threads := []
    stop_event := none
    queue := none }

/-- Line 54 of the source, executed by a worker whose loop body raised:
`self._stop_event.set()` (only meaningful when the event object exists). -/
def GeneratorEnqueuer.workerSetStop (s : GeneratorEnqueuer α) : GeneratorEnqueuer α :=
  { s with stop_event := s.stop_event.map (fun _ => true) }

/-- Result of one call to `GeneratorEnqueuer.__next__`. -/
inductive NextRes (α : Type) where
  /-- The call returned this item; the queue after the `get()`. -/
  | item : α → PyQueue α → NextRes α
  /-- The call raised `ValueError("Generator must be running ...")`. -/
  | invalidState : NextRes α
  /-- `self.queue` was `None` although running (`AttributeError`). -/
  | noQueue : NextRes α
  /-- The poll fuel ran out with the queue still empty: the call is still
  inside its `while True` sleep/retry loop. -/
  | stalled : NextRes α
deriving DecidableEq, Repr

/-- The `while True` poll loop of `__next__` (lines 91-96): if the queue is
non-empty, `get()` and return; otherwise sleep `wait_time` and retry.  Each
retry consumes one unit of fuel; in this single-call model nothing refills
the queue between polls, so an empty queue exhausts any amount of fuel. -/
def nextPollLoop (fuel : Nat) (q : PyQueue α) : NextRes α :=
  match q.items with
  | a :: rest => NextRes.item a { maxsize := q.maxsize, items := rest }
  | [] =>
    match fuel with
    | 0 => NextRes.stalled
    | fuel' + 1 => nextPollLoop fuel' q

/-- `GeneratorEnqueuer.__next__`: raises `ValueError` at entry when
`not self.is_running()`, otherwise enters the poll loop.  `fuel` bounds how
many empty polls the model observes. -/
def GeneratorEnqueuer.next (fuel : Nat) (s : GeneratorEnqueuer α) : NextRes α :=
  if s.is_running then
    match s.queue with
    | some q => nextPollLoop fuel q
    | none => NextRes.noQueue
  else NextRes.invalidState

/-- What the environment does during one iteration of a worker's
`data_generator_task` body once the worker has entered the
`qsize < max_q_size` branch: `next(self._generator)` yields a value and the
`put` succeeds, or `next` raises, or `next` yields but the `put` raises. -/
inductive LoopEvent (ε α : Type) where
  | yields : α → LoopEvent ε α
  | pullRaises : ε → LoopEvent ε α
  | putRaises : α → ε → LoopEvent ε α
deriving DecidableEq, Repr

/-- The part of the shared enqueuer state a worker reads and writes:
whether the shared stop event is set, and the shared queue. -/
structure WorkerView (α : Type) where
  flagSet : Bool
  q : PyQueue α
deriving DecidableEq, Repr

/-- Outcome of one iteration of `data_generator_task` (lines 45-55). -/
inductive WorkerOutcome (ε α : Type) where
  /-- The iteration completed (an item was put, or the worker slept) and the
  loop returns to its `while` test. -/
  | looped : WorkerView α → WorkerOutcome ε α
  /-- The `while not self._stop_event.is_set()` test failed: the worker
  exits its loop and terminates normally. -/
  | exited : WorkerView α → WorkerOutcome ε α
  /-- The `except` clause ran: the stop event was set and the error was
  re-raised, terminating the worker abnormally with this error. -/
  | raised : ε → WorkerView α → WorkerOutcome ε α
deriving DecidableEq, Repr

/-- One iteration of `data_generator_task`, the production loop each worker
runs (lines 45-55): test the stop event; inside `try`, compare
`self.queue.qsize()` against the captured `max_q_size`; either pull one item
and put it, or sleep `wait_time`; on any exception from the guarded block,
set the shared stop event and re-raise. -/
def dataGeneratorTask (max_q_size : Nat) (v : WorkerView α) (ev : LoopEvent ε α) :
    WorkerOutcome ε α :=
  if v.flagSet then WorkerOutcome.exited v
  else if v.q.qsize < max_q_size then
    match ev with
    | LoopEvent.yields a => WorkerOutcome.looped { flagSet := false, q := v.q.put a }
    | LoopEvent.pullRaises e => WorkerOutcome.raised e { flagSet := true, q := v.q }
    | LoopEvent.putRaises _ e => WorkerOutcome.raised e { flagSet := true, q := v.q }
  else WorkerOutcome.looped v

/-- Position of one worker inside its non-atomic check-then-produce sequence
in `data_generator_task`. -/
inductive WStage where
  /-- At the top of the loop, about to test `qsize < max_q_size`. -/
  | check
  /-- Has observed `qsize < max_q_size` and pulled an item from the source
  generator; about to `put` it. -/
  | passed
deriving DecidableEq, Repr

/-- Shared state of the worker pool and the queue, for the bounded-buffering
analysis: the queue size and each worker's stage.  (The items themselves and
the stop flag are irrelevant to the size bound: a set flag only removes
transitions.) -/
structure PoolState where
  qsize : Nat
  ws : List WStage
deriving DecidableEq, Repr

/-- Interleaved small-step semantics of `workers` copies of
`data_generator_task` (lines 45-55) plus the consumer's `__next__`
(lines 91-96), with a source generator that never blocks:
 - `pass` — some worker at its check observes `qsize < max_q_size` and pulls
   an item (its queue observation is not atomic with the later `put`);
 - `put` — some worker holding a pulled item inserts it, growing the queue;
 - `sleep` — some worker at its check observes a full queue and sleeps;
 - `consume` — the consumer observes a non-empty queue and `get`s one item. -/
inductive PoolStep (N : Nat) : PoolState → PoolState → Prop where
  | pass (q : Nat) (l r : List WStage) : q < N →
      PoolStep N ⟨q, l ++ WStage.check :: r⟩ ⟨q, l ++ WStage.passed :: r⟩
  | put (q : Nat) (l r : List WStage) :
      PoolStep N ⟨q, l ++ WStage.passed :: r⟩ ⟨q + 1, l ++ WStage.check :: r⟩
  | sleep (q : Nat) (l r : List WStage) : ¬ q < N →
      PoolStep N ⟨q, l ++ WStage.check :: r⟩ ⟨q, l ++ WStage.check :: r⟩
  | consume (q : Nat) (ws : List WStage) : 0 < q →
      PoolStep N ⟨q, ws⟩ ⟨q - 1, ws⟩

/-- States reachable after `start(workers = W, max_q_size = N)`: the queue
starts empty and every worker starts at its check. -/
inductive PoolReach (N W : Nat) : PoolState → Prop where
  | init : PoolReach N W ⟨0, List.replicate W WStage.check⟩
  | step {s t : PoolState} : PoolReach N W s → PoolStep N s t → PoolReach N W t

/-- Number of workers that have passed their check and hold an un-put item. -/
def countPassed : List WStage → Nat
  | [] => 0
  | WStage.passed :: ws => countPassed ws + 1
  | WStage.check :: ws => countPassed ws

/-- Single-worker configuration for the order-preservation analysis, with the
source generator yielding `0, 1, ..., k-1`: the generator cursor, the FIFO
queue contents (front = oldest), and the items returned so far by successive
`next_item()` calls, in order. -/
structure SingleState where
  produced : Nat
  qitems : List Nat
  consumed : List Nat
deriving DecidableEq, Repr

/-- Interleaved small-step semantics of one `data_generator_task` worker
(lines 45-55) with the consumer's `__next__` (lines 91-96), `workers = 1`:
 - `produce` — the worker observes `qsize < N`, pulls the next value from the
   generator and `put`s it at the back of the FIFO queue (with one worker the
   pull and the put cannot interleave with another producer);
 - `consume` — `next_item()` observes a non-empty queue and `get`s the front
   item, returning it to the caller. -/
inductive SingleStep (k N : Nat) : SingleState → SingleState → Prop where
  | produce {n : Nat} {q c : List Nat} : n < k → q.length < N →
      SingleStep k N ⟨n, q, c⟩ ⟨n + 1, q ++ [n], c⟩
  | consume {n a : Nat} {q c : List Nat} :
      SingleStep k N ⟨n, a :: q, c⟩ ⟨n, q, c ++ [a]⟩

/-- States reachable after `start(workers = 1, max_q_size = N)` with the
`0, 1, ..., k-1` generator. -/
inductive SingleReach (k N : Nat) : SingleState → Prop where
  | init : SingleReach k N ⟨0, [], []⟩
  | step {s t : SingleState} : SingleReach k N s → SingleStep k N s t →
      SingleReach k N t

/-- Top-level transitions of a `GeneratorEnqueuer` object: the public calls
`start` and `stop`, a crashing worker's `self._stop_event.set()` (line 54),
a running worker's `self.queue.put(...)` (line 50), and the consumer's
`self.queue.get()` when the queue is non-empty (lines 92-93). -/
inductive EnqStep : GeneratorEnqueuer α → GeneratorEnqueuer α → Prop where
  | start (s : GeneratorEnqueuer α) (w mq wt : Nat) :
      EnqStep s (s.start w mq wt)
  | stop (s : GeneratorEnqueuer α) :
      EnqStep s s.stop
  | workerError (s : GeneratorEnqueuer α) : s.is_running = true →
      EnqStep s s.workerSetStop
  | workerPut (s : GeneratorEnqueuer α) (q : PyQueue α) (a : α) :
      s.is_running = true → s.queue = some q →
      EnqStep s { s with queue := some (q.put a) }
  | consume (s : GeneratorEnqueuer α) (q : PyQueue α) (a : α) (rest : List α) :
      s.queue = some q → q.items = a :: rest →
      EnqStep s { s with queue := some { maxsize := q.maxsize, items := rest } }

/-- Enqueuer states reachable from a freshly constructed object. -/
inductive EnqReach (g : GenInfo) : GeneratorEnqueuer α → Prop where
  | init : EnqReach g (GeneratorEnqueuer.init α g).1
  | step {s t : GeneratorEnqueuer α} : EnqReach g s → EnqStep s t → EnqReach g t

/-- A concrete freshly constructed enqueuer over `Nat` items. -/
def enqFresh : GeneratorEnqueuer Nat :=
  (GeneratorEnqueuer.init Nat { steps_per_epoch := some 4, batch_size := some 2 }).1

/-- A concrete crashed enqueuer: constructed, started with
`workers = 1, max_q_size = 10, wait_time = 5`, after which the single worker
hit an error and executed `self._stop_event.set()` (line 54) before dying. -/
def enqCrashed : GeneratorEnqueuer Nat :=
  (enqFresh.start 1 10 5).workerSetStop

/-- `countPassed` distributes over list append. -/
theorem countPassed_append (l r : List WStage) :
    countPassed (l ++ r) = countPassed l + countPassed r := by
  induction l with
  | nil => simp [countPassed]
  | cons x xs ih =>
    cases x <;> simp [countPassed, ih] <;> omega

/-- At most every worker can be past its check. -/
theorem countPassed_le_length (ws : List WStage) :
    countPassed ws ≤ ws.length := by
  induction ws with
  | nil => simp [countPassed]
  | cons x xs ih => cases x <;> simp [countPassed] <;> omega

/-- A pool of workers all at their check holds no pulled item. -/
theorem countPassed_replicate_check (W : Nat) :
    countPassed (List.replicate W WStage.check) = 0 := by
  induction W with
  | zero => rfl
  | succ n ih => simpa [List.replicate, countPassed] using ih

/-- Invariant of the worker-pool system: the pool keeps its size, and the
queue size plus the number of pulled-but-not-yet-put items stays below
`N + W`: a worker pulls only after observing `qsize < N`, and at most
`W` pulled items can be in flight. -/
theorem poolReach_invariant {N W : Nat} {s : PoolState} (h : PoolReach N W s) :
    s.ws.length = W ∧ s.qsize + countPassed s.ws ≤ N + W - 1 := by
  induction h with
  | init =>
    refine ⟨by simp, ?_⟩
    simp [countPassed_replicate_check]
  | step hr hstep ih =>
    cases hstep with
    | pass q l r hqN =>
      obtain ⟨hlen, hbound⟩ := ih
      simp only [countPassed_append, countPassed, List.length_append,
        List.length_cons] at hlen hbound ⊢
      have hcl := countPassed_le_length l
      have hcr := countPassed_le_length r
      omega
    | put q l r =>
      obtain ⟨hlen, hbound⟩ := ih
      simp only [countPassed_append, countPassed, List.length_append,
        List.length_cons] at hlen hbound ⊢
      omega
    | sleep q l r hfull =>
      exact ih
    | consume q ws hq =>
      obtain ⟨hlen, hbound⟩ := ih
      refine ⟨hlen, ?_⟩
      show q - 1 + countPassed ws ≤ N + W - 1
      have hb : q + countPassed ws ≤ N + W - 1 := hbound
      omega

/-- Invariant of the single-worker system: what has been consumed followed
by what is still queued is exactly the prefix of the generator's output
stream produced so far, and the generator never runs past `k`. -/
theorem singleReach_invariant {k N : Nat} {s : SingleState} (h : SingleReach k N s) :
    s.consumed ++ s.qitems = List.range s.produced ∧ s.produced ≤ k := by
  induction h with
  | init => simp
  | step hr hstep ih =>
    cases hstep with
    | @produce n q c hnk hqN =>
      obtain ⟨hinv, hk⟩ := ih
      refine ⟨?_, ?_⟩
      · show c ++ (q ++ [n]) = List.range (n + 1)
        rw [List.range_succ, ← List.append_assoc]
        exact congrArg (· ++ [n]) hinv
      · show n + 1 ≤ k
        omega
    | @consume n a q c =>
      obtain ⟨hinv, hk⟩ := ih
      refine ⟨?_, hk⟩
      show (c ++ [a]) ++ q = List.range n
      rw [List.append_assoc]
      exact hinv

/-- C1 counterexample: after `start(workers = 1, max_q_size = 10,
wait_time = 5)` the queue object created is `queue.Queue()` with the default
`maxsize = 0` (unbounded), not a queue of capacity 10: `max_q_size` is never
passed to the queue constructor. -/
theorem start_queue_capacity_cex :
    (enqFresh.start 1 10 5).queue.map PyQueue.maxsize = some 0 ∧
    (enqFresh.start 1 10 5).queue.map PyQueue.maxsize ≠ some 10 := by
  decide

/-- C1 (amended): every call to `start(workers, max_q_size, wait_time)`
creates a fresh **unbounded** queue (Python `maxsize = 0`, the
`queue.Queue()` default), regardless of `max_q_size`; consequently a
worker's insert never blocks — `max_q_size` only bounds the queue softly
through each worker's qsize check before producing. -/
theorem start_creates_unbounded_queue (s : GeneratorEnqueuer α)
    (workers max_q_size wait_time : Nat) :
    (s.start workers max_q_size wait_time).queue = some (PyQueue.new α) ∧
    (PyQueue.new α).maxsize = 0 := ⟨rfl, rfl⟩

/-- C2 counterexample: with the stop flag set by a crashed worker
(`enqCrashed`), a `next_item()` call raises the `ValueError` immediately —
already with zero polling fuel, i.e. before its wait loop runs even once —
rather than looping forever: the claimed infinite stall does not happen for
a call made after the flag is set. -/
theorem next_after_worker_crash_cex :
    enqCrashed.stop_event = some true ∧
    GeneratorEnqueuer.next 0 enqCrashed = NextRes.invalidState := by
  decide

/-- C2 (amended): every `next_item()` call made after a worker error has set
the stop flag raises the InvalidState error (`ValueError`) at entry, for any
amount of polling: the `is_running` test at the top of `__next__` fails once
the flag is set.  (An infinite stall can only affect a call that entered the
wait loop while still running, since the running test is made only at
entry.) -/
theorem next_after_worker_crash_raises (fuel : Nat) (s : GeneratorEnqueuer α)
    (h : s.stop_event = some true) :
    GeneratorEnqueuer.next fuel s = NextRes.invalidState := by
  simp [GeneratorEnqueuer.next, GeneratorEnqueuer.is_running, h]

/-- Witness for the amended C2 at the concrete crashed enqueuer. -/
theorem next_after_worker_crash_raises_witness :
    enqCrashed.stop_event = some true ∧
    GeneratorEnqueuer.next 7 enqCrashed = NextRes.invalidState :=
  ⟨by decide, next_after_worker_crash_raises 7 enqCrashed (by decide)⟩

/-- C3: in every state reachable after `start(workers = W, max_q_size = N)`
with `W ≥ 1` and a never-blocking source generator, the number of buffered
items never exceeds `N + (W - 1)`: each worker can hold at most one item
pulled after a stale `qsize < N` observation. -/
theorem pool_qsize_le_max_plus_workers {N W : Nat} {s : PoolState}
    (hW : 1 ≤ W) (h : PoolReach N W s) : s.qsize ≤ N + (W - 1) := by
  have hinv := poolReach_invariant h
  omega

/-- Witness for C3: a two-worker pool that has interleaved both workers past
their checks at `N = 1` and taken the puts, reaching the extremal size
`N + (W - 1) = 2`. -/
theorem pool_qsize_le_max_plus_workers_witness :
    1 ≤ 2 ∧ (⟨2, [WStage.check, WStage.check]⟩ : PoolState).qsize ≤ 1 + (2 - 1) := by
  refine ⟨by decide, pool_qsize_le_max_plus_workers (by decide) ?_⟩
  have h0 : PoolReach 1 2 ⟨0, List.replicate 2 WStage.check⟩ := PoolReach.init
  have h1 : PoolReach 1 2 ⟨0, [WStage.passed, WStage.check]⟩ :=
    h0.step (PoolStep.pass 0 [] [WStage.check] (by decide))
  have h2 : PoolReach 1 2 ⟨0, [WStage.passed, WStage.passed]⟩ :=
    h1.step (PoolStep.pass 0 [WStage.passed] [] (by decide))
  have h3 : PoolReach 1 2 ⟨1, [WStage.check, WStage.passed]⟩ :=
    h2.step (PoolStep.put 0 [] [WStage.passed])
  exact h3.step (PoolStep.put 1 [WStage.check] [])

/-- C4: every `next_item()` call made while the enqueuer is not running
(stop event absent or set) raises the InvalidState error (`ValueError`)
instead of returning an item or entering the wait loop, for any amount of
polling fuel. -/
theorem next_not_running_raises (fuel : Nat) (s : GeneratorEnqueuer α)
    (h : s.is_running = false) :
    GeneratorEnqueuer.next fuel s = NextRes.invalidState := by
  simp [GeneratorEnqueuer.next, h]

/-- Witness for C4 at a freshly constructed, never-started enqueuer. -/
theorem next_not_running_raises_witness :
    enqFresh.is_running = false ∧
    GeneratorEnqueuer.next 3 enqFresh = NextRes.invalidState :=
  ⟨by decide, next_not_running_raises 3 enqFresh (by decide)⟩

/-- C5: with `workers = 1` and the source generator yielding
`0, 1, ..., k-1`, in every reachable state the list of items returned by
successive `next_item()` calls is exactly `0, 1, ..., j-1` for `j` the
number of calls made so far (and `j ≤ k`): single-worker order is
preserved. -/
theorem single_worker_order_preserved {k N : Nat} {s : SingleState}
    (h : SingleReach k N s) :
    s.consumed = List.range s.consumed.length ∧ s.consumed.length ≤ k := by
  obtain ⟨hinv, hk⟩ := singleReach_invariant h
  have hlen : s.consumed.length + s.qitems.length = s.produced := by
    have h1 := congrArg List.length hinv
    simpa using h1
  have hle : s.consumed.length ≤ s.produced := by omega
  refine ⟨?_, by omega⟩
  have h1 : s.consumed = List.range (min s.consumed.length s.produced) := by
    rw [← List.take_range, ← hinv, List.take_left]
  rwa [Nat.min_eq_left hle] at h1

/-- Witness for C5: a concrete `k = 2`, `N = 1` run — produce 0, consume 0,
produce 1, consume 1 — whose consumed list is exactly `[0, 1]`. -/
theorem single_worker_order_preserved_witness :
    (⟨2, [], [0, 1]⟩ : SingleState).consumed =
      List.range (⟨2, [], [0, 1]⟩ : SingleState).consumed.length ∧
    (⟨2, [], [0, 1]⟩ : SingleState).consumed.length ≤ 2 := by
  have h0 : SingleReach 2 1 ⟨0, [], []⟩ := SingleReach.init
  have h1 : SingleReach 2 1 ⟨1, [0], []⟩ :=
    h0.step (SingleStep.produce (by decide) (by decide))
  have h2 : SingleReach 2 1 ⟨1, [], [0]⟩ := h1.step SingleStep.consume
  have h3 : SingleReach 2 1 ⟨2, [1], [0]⟩ :=
    h2.step (SingleStep.produce (by decide) (by decide))
  have h4 : SingleReach 2 1 ⟨2, [], [0, 1]⟩ := h3.step SingleStep.consume
  exact single_worker_order_preserved h4

/-- C6: whenever an error is raised inside a worker's production loop while
pulling from the source generator or while inserting into the queue (both of
which can only happen after the worker's `qsize < max_q_size` check passed),
the worker sets the shared stop flag and re-raises that very error — the
outcome is an abnormal termination carrying the error, never a silent
continuation. -/
theorem worker_error_sets_stop_and_reraises (max_q_size : Nat)
    (v : WorkerView α) (ev : LoopEvent ε α) (e : ε)
    (hflag : v.flagSet = false) (hq : v.q.qsize < max_q_size)
    (hev : ev = LoopEvent.pullRaises e ∨ ∃ a, ev = LoopEvent.putRaises a e) :
    dataGeneratorTask max_q_size v ev =
      WorkerOutcome.raised e { flagSet := true, q := v.q } := by
  rcases hev with h | ⟨a, h⟩ <;> subst h <;>
    simp [dataGeneratorTask, hflag, hq]

/-- Witness for C6: a concrete pull error on an empty queue below the bound
terminates the worker with that error and the flag set. -/
theorem worker_error_sets_stop_and_reraises_witness :
    (⟨false, PyQueue.new Nat⟩ : WorkerView Nat).flagSet = false ∧
    (PyQueue.new Nat).qsize < 10 ∧
    dataGeneratorTask 10 (⟨false, PyQueue.new Nat⟩ : WorkerView Nat)
        (LoopEvent.pullRaises 3 : LoopEvent Nat Nat) =
      WorkerOutcome.raised 3 { flagSet := true, q := PyQueue.new Nat } :=
  ⟨rfl, by decide,
    worker_error_sets_stop_and_reraises 10 ⟨false, PyQueue.new Nat⟩
      (LoopEvent.pullRaises 3 : LoopEvent Nat Nat) 3 rfl (by decide) (Or.inl rfl)⟩

/-- C7 counterexample: the crashed enqueuer is not running, yet `stop()` on
it is not a no-op on the observable attributes — it clears the still-present
thread list, stop event and queue. -/
theorem stop_not_running_noop_cex :
    enqCrashed.is_running = false ∧ enqCrashed.stop ≠ enqCrashed := by
  decide

/-- C7 (amended): `stop()` never raises (it is a total function), is
idempotent — a second `stop()` changes nothing — and always leaves
`is_running() == false`; on the idle state (never started, or already
stopped: no threads, no stop event, no queue) it is a no-op.  It is *not* a
no-op on every non-running state: after a worker crash it still clears the
threads, event and queue. -/
theorem stop_idempotent_not_running (s : GeneratorEnqueuer α) :
    s.stop.stop = s.stop ∧
    s.stop.is_running = false ∧
    (s.threads = [] → s.stop_event = none → s.queue = none → s.stop = s) := by
  refine ⟨rfl, rfl, ?_⟩
  intro h1 h2 h3
  cases s
  simp only [GeneratorEnqueuer.stop] at h1 h2 h3 ⊢
  simp [h1, h2, h3]

/-- Witness for the amended C7 at a freshly constructed enqueuer. -/
theorem stop_idempotent_not_running_witness :
    enqFresh.stop = enqFresh ∧ enqFresh.stop.is_running = false :=
  ⟨(stop_idempotent_not_running enqFresh).2.2 rfl rfl rfl,
    (stop_idempotent_not_running enqFresh).2.1⟩

/-- C8 counterexample: a source with `steps_per_epoch` present but
`batch_size` absent — the present attribute is *not* copied through (the
source guards the copy with a conjunction of the two `hasattr` tests) and
the warning fires, though construction succeeds. -/
theorem init_single_attr_not_copied_cex :
    (GeneratorEnqueuer.init Nat ⟨some 5, none⟩).1.steps_per_epoch = none ∧
    (GeneratorEnqueuer.init Nat ⟨some 5, none⟩).2 = true := by
  decide

/-- C8 (amended): construction always succeeds; the two informational fields
are copied through exactly when **both** are present on the source (in which
case no warning fires), and when either is absent a warning fires and
neither field is copied. -/
theorem init_copies_iff_both_present (α : Type) (g : GenInfo) :
    (∀ spe bs, g.steps_per_epoch = some spe → g.batch_size = some bs →
      (GeneratorEnqueuer.init α g).1.steps_per_epoch = some spe ∧
      (GeneratorEnqueuer.init α g).1.batch_size = some bs ∧
      (GeneratorEnqueuer.init α g).2 = false) ∧
    ((g.steps_per_epoch = none ∨ g.batch_size = none) →
      (GeneratorEnqueuer.init α g).1.steps_per_epoch = none ∧
      (GeneratorEnqueuer.init α g).1.batch_size = none ∧
      (GeneratorEnqueuer.init α g).2 = true) := by
  obtain ⟨spe, bs⟩ := g
  cases spe <;> cases bs <;>
    simp [GeneratorEnqueuer.init, BatchGenerator.init]

/-- Witness for the amended C8: both attributes present are copied through
with no warning. -/
theorem init_copies_iff_both_present_witness :
    (GeneratorEnqueuer.init Nat ⟨some 4, some 2⟩).1.steps_per_epoch = some 4 ∧
    (GeneratorEnqueuer.init Nat ⟨some 4, some 2⟩).1.batch_size = some 2 ∧
    (GeneratorEnqueuer.init Nat ⟨some 4, some 2⟩).2 = false :=
  (init_copies_iff_both_present Nat ⟨some 4, some 2⟩).1 4 2 rfl rfl

/-- A running enqueuer has a stop event object. -/
theorem is_running_stop_event_isSome {s : GeneratorEnqueuer α}
    (h : s.is_running = true) : s.stop_event.isSome = true := by
  cases hse : s.stop_event with
  | none => simp [GeneratorEnqueuer.is_running, hse] at h
  | some b => simp

/-- A crashing worker's `set()` leaves the enqueuer not running. -/
theorem workerSetStop_not_running (s : GeneratorEnqueuer α) :
    s.workerSetStop.is_running = false := by
  cases hse : s.stop_event <;>
    simp [GeneratorEnqueuer.workerSetStop, GeneratorEnqueuer.is_running, hse]

/-- C9 counterexample: the crashed enqueuer is reachable
(construct, `start`, worker error), is **not** running, yet both the queue
and the stop flag object still exist — existence of the two does not imply
the running state. -/
theorem queue_exists_while_not_running_cex :
    EnqReach ⟨some 4, some 2⟩ enqCrashed ∧
    enqCrashed.is_running = false ∧
    enqCrashed.queue.isSome = true ∧
    enqCrashed.stop_event.isSome = true := by
  refine ⟨?_, by decide, by decide, by decide⟩
  have h0 : EnqReach ⟨some 4, some 2⟩ enqFresh := EnqReach.init
  have h1 : EnqReach ⟨some 4, some 2⟩ (enqFresh.start 1 10 5) :=
    h0.step (EnqStep.start enqFresh 1 10 5)
  exact h1.step (EnqStep.workerError (enqFresh.start 1 10 5) (by decide))

/-- C9 (amended): in every reachable state the queue and the stop flag exist
**together** (one exists iff the other does), neither exists before the
first `start()` or after `stop()` returns, and both exist whenever the
enqueuer is running; but existence does not conversely imply running —
after a worker error sets the flag, the enqueuer is no longer running while
both objects still exist. -/
theorem queue_and_flag_exist_together {g : GenInfo} {s : GeneratorEnqueuer α}
    (h : EnqReach g s) :
    s.queue.isSome = s.stop_event.isSome ∧
    (s.is_running = true →
      s.queue.isSome = true ∧ s.stop_event.isSome = true) := by
  induction h with
  | init =>
    obtain ⟨spe, bs⟩ := g
    cases spe <;> cases bs <;>
      simp [GeneratorEnqueuer.init, GeneratorEnqueuer.is_running]
  | step hr hstep ih =>
    rename_i u t
    obtain ⟨ih1, ih2⟩ := ih
    cases hstep with
    | start w mq wt =>
      exact ⟨rfl, fun _ => ⟨rfl, rfl⟩⟩
    | stop =>
      refine ⟨rfl, fun hrt => ?_⟩
      simp [GeneratorEnqueuer.stop, GeneratorEnqueuer.is_running] at hrt
    | workerError hrun =>
      refine ⟨?_, fun hrt => ?_⟩
      · show u.queue.isSome = (u.stop_event.map (fun _ => true)).isSome
        rw [ih1]
        cases u.stop_event <;> rfl
      · rw [workerSetStop_not_running u] at hrt
        cases hrt
    | workerPut q a hrun hq =>
      exact ⟨by simp [is_running_stop_event_isSome hrun],
        fun _ => ⟨rfl, is_running_stop_event_isSome hrun⟩⟩
    | consume q a rest hq hitems =>
      have hq1 : u.queue.isSome = true := by rw [hq]; rfl
      have hse : u.stop_event.isSome = true := by rw [← ih1]; exact hq1
      exact ⟨by simp [hse], fun _ => ⟨rfl, hse⟩⟩

/-- Witness for the amended C9 at a concrete started enqueuer. -/
theorem queue_and_flag_exist_together_witness :
    (enqFresh.start 1 10 5).queue.isSome = (enqFresh.start 1 10 5).stop_event.isSome ∧
    ((enqFresh.start 1 10 5).is_running = true →
      (enqFresh.start 1 10 5).queue.isSome = true ∧
      (enqFresh.start 1 10 5).stop_event.isSome = true) := by
  have h0 : EnqReach ⟨some 4, some 2⟩ enqFresh := EnqReach.init
  exact queue_and_flag_exist_together (h0.step (EnqStep.start enqFresh 1 10 5))

/-- C10: `start()` checks no not-already-running precondition and never
raises (it is a total function); a second `start()` without an intervening
`stop()` replaces the queue and the stop event with fresh objects (an empty
unbounded queue and an unset event) and appends the second call's `workers`
threads to the still-uncleaned list, so the pool grows to the sum of both
calls' worker counts. -/
theorem start_twice_grows_pool (α : Type) (g : GenInfo)
    (w1 mq1 wt1 w2 mq2 wt2 : Nat) :
    (((GeneratorEnqueuer.init α g).1.start w1 mq1 wt1).start w2 mq2 wt2).threads.length
        = w1 + w2 ∧
    (((GeneratorEnqueuer.init α g).1.start w1 mq1 wt1).start w2 mq2 wt2).queue
        = some (PyQueue.new α) ∧
    (((GeneratorEnqueuer.init α g).1.start w1 mq1 wt1).start w2 mq2 wt2).stop_event
        = some false := by
  obtain ⟨spe, bs⟩ := g
  cases spe <;> cases bs <;>
    simp [GeneratorEnqueuer.init, GeneratorEnqueuer.start]
